import Mathlib

/-!
Verification development for the `pdf-visualizer` repository
(`src/unnamed/part_002`, the `PDFViewer` class of `pdfViewer.js`).

The class is shallowly embedded as a state structure `ViewerState` together
with one Lean function per method (or per synchronous segment of an `async`
method, split at its `await` points, since the JavaScript event loop is
single-threaded and only suspends at `await`).  Fallible property accesses
on a `null` document handle are modelled with `Except RuntimeFault`.

DOM facts that the class observes or mutates (whether the overlay container
is attached to `document.body`, the preloader, the page/zoom labels, the
disabled state of the buttons) are carried as explicit fields.  Pending
asynchronous work (an unresolved `getDocument` promise, outstanding
`renderPage` executions, a scheduled `animationend` callback, an unfinished
`printJS` job or download fetch) is likewise carried as state, and each
completion is a separate step function, so that interleavings of the event
loop can be replayed as explicit traces.
-/

/-- Equality of `Except` values is decidable when it is on both sides. -/
instance instDecEqExcept {ε α : Type} [DecidableEq ε] [DecidableEq α] :
    DecidableEq (Except ε α) := fun a b =>
  match a, b with
  | .ok x, .ok y => decidable_of_iff (x = y) (by constructor <;> (intro h; first | rw [h] | injection h))
  | .error x, .error y => decidable_of_iff (x = y) (by constructor <;> (intro h; first | rw [h] | injection h))
  | .ok _, .error _ => .isFalse (fun h => by injection h)
  | .error _, .ok _ => .isFalse (fun h => by injection h)

/-- Runtime fault raised by a JavaScript property access on `null`
(for example `this.pdfDoc.numPages` when `this.pdfDoc` is `null`). -/
inductive RuntimeFault where
  | nullDoc
deriving DecidableEq

/-- The pdf.js document proxy as far as the viewer uses it: its `numPages`
and whether `destroy()` has been invoked on it. -/
structure PdfDocHandle where
  numPages : Int
  destroyed : Bool
deriving DecidableEq

/-- State of one `PDFViewer` instance, after `init()` has built the overlay.
Fields up to `isPrinting` are exactly the instance fields assigned in the
constructor (lines 31-61); the remaining fields model the DOM and the
event-loop obligations the methods interact with.

`this.scale` only ever holds the exact decimal values `0.5, 0.6, ..., 3.0`
(it starts at `1.0` and moves in `0.1` steps clamped to `[0.5, 3.0]`), so it
is embedded exactly as `scaleTenths`, the scale multiplied by ten: `1.0` is
`10`, `0.1` is `1`, the clamps `0.5`/`3.0` are `5`/`30`. -/
structure ViewerState where
  url : String
  pdfDoc : Option PdfDocHandle
  page : Option Int
  pageNum : Int
  pageRendering : Bool
  pageNumPending : Option Int
  scaleTenths : Int
  isDraggingHeader : Bool
  offsetX : Int
  offsetY : Int
  isDraggingScroll : Bool
  startX : Int
  startY : Int
  scrollLeft : Int
  scrollTop : Int
  previousFocusedElement : Option Int
  isClosing : Bool
  isDownloading : Bool
  isPrinting : Bool
  mounted : Bool
  loadPending : Bool
  activeRenders : List Int
  renderedLog : List Int
  closeAnimPending : Bool
  preloaderVisible : Bool
  preloaderError : Bool
  pageNumText : Option Int
  pageCountText : Option Int
  zoomInfoPct : Int
  prevDisabled : Bool
  nextDisabled : Bool
  zoomInDisabled : Bool
  zoomOutDisabled : Bool
  printBusy : Bool
  downloadBusy : Bool
deriving DecidableEq

/-- Constructor defaults (lines 31-61) plus the overlay as built by `init()`
(lines 84-180: zoom label shows `100%`, the four navigation/zoom buttons
carry the `disabled` attribute, the preloader is visible, the container is
not yet attached to `document.body`). -/
def initState : ViewerState where
  url := ""
  pdfDoc := none
  page := none
  pageNum := 1
  pageRendering := false
  pageNumPending := none
  scaleTenths := 10
  isDraggingHeader := false
  offsetX := 0
  offsetY := 0
  isDraggingScroll := false
  startX := 0
  startY := 0
  scrollLeft := 0
  scrollTop := 0
  previousFocusedElement := none
  isClosing := false
  isDownloading := false
  isPrinting := false
  mounted := false
  loadPending := false
  activeRenders := []
  renderedLog := []
  closeAnimPending := false
  preloaderVisible := true
  preloaderError := false
  pageNumText := none
  pageCountText := none
  zoomInfoPct := 100
  prevDisabled := true
  nextDisabled := true
  zoomInDisabled := true
  zoomOutDisabled := true
  printBusy := false
  downloadBusy := false

/-- `updateZoomInfo()` (lines 383-385): writes `Math.round(scale * 100)` into
the zoom label; on the exact decimals the scale takes this is
`scaleTenths * 10`. -/
def updateZoomInfo (s : ViewerState) : ViewerState :=
  { s with zoomInfoPct := s.scaleTenths * 10 }

/-- `updateUI()` (lines 506-511): recomputes the `disabled` state of the four
navigation/zoom buttons.  Reads `this.pdfDoc.numPages`, so it faults when
`pdfDoc` is `null`. -/
def updateUI (s : ViewerState) : Except RuntimeFault ViewerState :=
  match s.pdfDoc with
  | none => .error .nullDoc
  | some d => .ok { s with
      prevDisabled := decide (s.pageNum ≤ 1)
      nextDisabled := decide (s.pageNum ≥ d.numPages)
      zoomInDisabled := decide (s.scaleTenths ≥ 30)
      zoomOutDisabled := decide (s.scaleTenths ≤ 5) }

/-- Start of `renderPage(num)` (lines 254-264): `this.pdfDoc.getPage(num)` is
invoked (faulting when `pdfDoc` is `null`) and the render becomes an
outstanding execution; the two `await`s of `renderPage` are modelled as a
single in-flight window ended by `renderPageComplete`.  Note the source sets
no flag here: `this.pageRendering` is NOT assigned `true` by `renderPage`. -/
def renderPageStart (s : ViewerState) (num : Int) : Except RuntimeFault ViewerState :=
  match s.pdfDoc with
  | none => .error .nullDoc
  | some _ => .ok { s with page := some num, activeRenders := s.activeRenders ++ [num] }

/-- Continuation of `renderPage(num)` after `await renderTask.promise`
(lines 266-276): the oldest outstanding render finishes painting, the
`pageRendering` flag is cleared, a pending page (if any) is started and the
pending slot cleared, the page label is updated, and `updateUI()` runs. -/
def renderPageComplete (s : ViewerState) : Except RuntimeFault ViewerState :=
  match s.activeRenders with
  | [] => .ok s
  | num :: rest =>
    let s1 := { s with
      activeRenders := rest
      renderedLog := s.renderedLog ++ [num]
      pageRendering := false }
    let s2 := match s1.pageNumPending with
      | some p => (renderPageStart s1 p).map (fun (t : ViewerState) => { t with pageNumPending := none })
      | none => .ok s1
    s2.bind (fun t => updateUI { t with pageNumText := some num })

/-- `queueRenderPage(num)` (lines 284-290): if `pageRendering` is set the
request overwrites the single pending slot, otherwise `renderPage(num)` is
started immediately. -/
def queueRenderPage (s : ViewerState) (num : Int) : Except RuntimeFault ViewerState :=
  if s.pageRendering then .ok { s with pageNumPending := some num }
  else renderPageStart s num

/-- Entry of `async loadPDF(url)` up to the `await` on `getDocument`
(lines 233-237): sets `pageRendering := true`, records the url, and leaves a
document load outstanding. -/
def loadPDF (u : String) (s : ViewerState) : ViewerState :=
  { s with pageRendering := true, url := u, loadPending := true }

/-- Continuation of `loadPDF` when `getDocument` resolves (lines 238-242):
stores the document handle, shows the page count, hides the preloader and
starts `renderPage(this.pageNum)`. -/
def loadPDFResolved (numPages : Int) (s : ViewerState) : Except RuntimeFault ViewerState :=
  if s.loadPending then
    let s1 := { s with
      loadPending := false
      pdfDoc := some { numPages := numPages, destroyed := false }
      pageCountText := some numPages
      preloaderVisible := false }
    renderPageStart s1 s1.pageNum
  else .ok s

/-- `catch` branch of `loadPDF` (lines 243-246): logs the error and replaces
the preloader text with an inline error message.  The source does NOT clear
`this.pageRendering` here. -/
def loadPDFRejected (s : ViewerState) : ViewerState :=
  if s.loadPending then { s with loadPending := false, preloaderError := true }
  else s

/-- `onPrevPage()` (lines 304-310): rejected while `pageRendering`; no-op at
page 1 (this check precedes every document-handle access); otherwise
decrements the page and queues a render. -/
def onPrevPage (s : ViewerState) : Except RuntimeFault ViewerState :=
  if s.pageRendering then .ok s
  else if s.pageNum ≤ 1 then .ok s
  else queueRenderPage { s with pageNum := s.pageNum - 1 } (s.pageNum - 1)

/-- `onNextPage()` (lines 323-329): rejected while `pageRendering`; then
compares `this.pageNum >= this.pdfDoc.numPages`, an access that faults when
`pdfDoc` is `null`; otherwise increments the page and queues a render. -/
def onNextPage (s : ViewerState) : Except RuntimeFault ViewerState :=
  if s.pageRendering then .ok s
  else match s.pdfDoc with
    | none => .error .nullDoc
    | some d =>
      if s.pageNum ≥ d.numPages then .ok s
      else queueRenderPage { s with pageNum := s.pageNum + 1 } (s.pageNum + 1)

/-- `Math.min(3.0, x)` on tenths. -/
def clampHi (x : Int) : Int := if x ≤ 30 then x else 30

/-- `Math.max(0.5, x)` on tenths. -/
def clampLo (x : Int) : Int := if 5 ≤ x then x else 5

/-- `onZoomIn()` (lines 343-350): rejected while `pageRendering`; if
`scale < 3.0`, sets `scale := Math.min(3.0, scale + 0.1)`, queues a render of
the current page, and refreshes the zoom label. -/
def onZoomIn (s : ViewerState) : Except RuntimeFault ViewerState :=
  if s.pageRendering then .ok s
  else if s.scaleTenths < 30 then
    let s1 := { s with scaleTenths := clampHi (s.scaleTenths + 1) }
    (queueRenderPage s1 s1.pageNum).map updateZoomInfo
  else .ok s

/-- `onZoomOut()` (lines 364-372): rejected while `pageRendering`; if
`scale > 0.5`, sets `scale := Math.max(0.5, scale - 0.1)`, queues a render of
the current page, and refreshes the zoom label. -/
def onZoomOut (s : ViewerState) : Except RuntimeFault ViewerState :=
  if s.pageRendering then .ok s
  else if s.scaleTenths > 5 then
    let s1 := { s with scaleTenths := clampLo (s.scaleTenths - 1) }
    (queueRenderPage s1 s1.pageNum).map updateZoomInfo
  else .ok s

/-- `onPrint()` (lines 399-422): rejected while rendering, closing,
downloading or printing; otherwise sets `isPrinting := true` and hands the
current URL to the `printJS` pipeline (job outstanding). -/
def onPrint (s : ViewerState) : ViewerState :=
  if s.pageRendering || s.isClosing || s.isDownloading || s.isPrinting then s
  else { s with isPrinting := true, printBusy := true }

/-- The `onLoadingEnd` callback passed to `printJS` (lines 416-420), invoked
by the print pipeline on success and, via its `cleanUp` routine, on failure:
restores the button and clears `isPrinting`. -/
def printOnLoadingEnd (s : ViewerState) : ViewerState :=
  if s.printBusy then { s with isPrinting := false, printBusy := false }
  else s

/-- Entry of `async onDownload()` up to the `fetch` (lines 438-451): rejected
while rendering, closing, downloading or printing; otherwise sets
`isDownloading := true` and starts the fetch. -/
def onDownload (s : ViewerState) : ViewerState :=
  if s.pageRendering || s.isClosing || s.isDownloading || s.isPrinting then s
  else { s with isDownloading := true, downloadBusy := true }

/-- Completion of `onDownload` (lines 452-475): both the success path and the
`catch` path fall through to the `finally` block, which clears
`isDownloading`; `ok` distinguishes the two exit paths. -/
def onDownloadFinish (_succeeded : Bool) (s : ViewerState) : ViewerState :=
  if s.downloadBusy then { s with isDownloading := false, downloadBusy := false }
  else s

/-- `open(url)` after the optional 100 ms pause (lines 589-593): captures the
currently focused element, attaches the container to `document.body`, and
invokes `loadPDF(url)`.  The source checks nothing except `isClosing` (and
the check only delays, it never rejects). -/
def openBody (act : Option Int) (u : String) (s : ViewerState) : ViewerState :=
  loadPDF u { s with previousFocusedElement := act, mounted := true }

/-- The pause `open` takes when `isClosing` is set (line 587):
`await new Promise(resolve => setTimeout(resolve, 100))`. -/
def openClosingPauseMs : Nat := 100

/-- Duration of the exit animation that ends `close()`, from the stylesheet
the class imports: `.pdf-visualizer-content-closed { animation:
hideCustomModal 0.2s forwards; }` (src/css/style.css). -/
def hideAnimationMs : Nat := 200

/-- Synchronous part of `close()` (lines 613-620): no-op while rendering,
closing, downloading or printing; otherwise sets `isClosing := true`, adds
the exit-animation class and registers a one-shot `animationend` listener.
The listener can only ever fire if the container is attached to the
document (CSS animations do not run on detached elements), hence the
callback is recorded as scheduled only when `mounted`. -/
def closeBegin (s : ViewerState) : ViewerState :=
  if s.pageRendering || s.isClosing || s.isDownloading || s.isPrinting then s
  else { s with isClosing := true, closeAnimPending := s.mounted }

/-- The `animationend` handler of `close()` (lines 620-667): detaches the
container, resets the state fields listed there, restores the UI, invokes
`destroy()` on the document handle if present (keeping the reference), and
clears `isClosing` and `isDownloading`.  Fields the handler does not touch
(`pdfDoc` itself, `page`, `pageRendering`, `isPrinting`,
`previousFocusedElement`, the preloader text) keep their values. -/
def closeAnimEnd (s : ViewerState) : ViewerState :=
  if s.closeAnimPending then
    let s1 := { s with
      mounted := false
      url := ""
      pageNum := 1
      pageNumPending := none
      scaleTenths := 10
      isDraggingHeader := false
      offsetX := 0
      offsetY := 0
      isDraggingScroll := false
      startX := 0
      startY := 0
      scrollLeft := 0
      scrollTop := 0
      preloaderVisible := true }
    let s2 := updateZoomInfo s1
    { s2 with
      pageNumText := none
      pageCountText := none
      prevDisabled := true
      nextDisabled := true
      zoomInDisabled := true
      zoomOutDisabled := true
      pdfDoc := s2.pdfDoc.map (fun d => { d with destroyed := true })
      isClosing := false
      isDownloading := false
      closeAnimPending := false }
  else s

/-- Extracts the state of a non-faulting step, defaulting to `initState`
(used only to name states of traces that are separately proved fault-free). -/
def okState (e : Except RuntimeFault ViewerState) : ViewerState :=
  match e with
  | .ok s => s
  | .error _ => initState

/-- Trace: `open` on a fresh viewer, the document resolves with 3 pages, and
the initial render of page 1 completes.  This is the normal idle state of an
open viewer. -/
def afterLoad : Except RuntimeFault ViewerState :=
  (loadPDFResolved 3 (openBody (some 7) "a.pdf" initState)).bind renderPageComplete

/-- The idle open state reached by `afterLoad`. -/
def sIdle : ViewerState := okState afterLoad

/-- Folds a list of zoom clicks over the state; `true` is `onZoomIn`,
`false` is `onZoomOut`. -/
def applyZooms (ops : List Bool) (s : ViewerState) : Except RuntimeFault ViewerState :=
  ops.foldlM (fun t b => if b then onZoomIn t else onZoomOut t) s

/-- Trace for the coalescing claim: from the idle open state, a render of
page 2 is requested; while it is outstanding, renders of pages 3 and 4 are
requested; then the outstanding renders complete in order. -/
def c1s2 : ViewerState := okState (queueRenderPage sIdle 2)

/-- Second request of the coalescing trace (issued while page 2 renders). -/
def c1s3 : ViewerState := okState (queueRenderPage c1s2 3)

/-- Third request of the coalescing trace (issued while pages 2 and 3
render). -/
def c1s4 : ViewerState := okState (queueRenderPage c1s3 4)

/-- Final state of the coalescing trace after the three outstanding renders
complete. -/
def c1final : ViewerState :=
  okState (((renderPageComplete c1s4).bind renderPageComplete).bind renderPageComplete)

/-- State after the idle open viewer handles a click on the next-page
button: `onNextPage` runs `queueRenderPage(2)`, which starts a render. -/
def c2state : ViewerState := okState (afterLoad.bind onNextPage)

/-- State after `open` on a fresh viewer whose document load is rejected by
the engine: the `catch` branch of `loadPDF` runs. -/
def c3state : ViewerState := loadPDFRejected (openBody (some 7) "bad.pdf" initState)

/-- Interleaving of `open` during `close`: `close()` is called on the idle
open viewer at t = 0 ms, scheduling its `animationend` for
t = `hideAnimationMs` = 200 ms; `open` is called at t = 50 ms, pauses
`openClosingPauseMs` = 100 ms, and resumes at t = 150 ms — before the close
has finished; the close's `animationend` then fires at t = 200 ms. -/
def c4state : ViewerState := closeAnimEnd (openBody (some 9) "b.pdf" (closeBegin sIdle))

/-- Print requested while a render is in flight: from the idle open state
the user clicks next (starting a render of page 2) and then clicks print
while that render is outstanding. -/
def c9state : ViewerState := okState ((onNextPage sIdle).map onPrint)

/-- The fully closed state: the idle open viewer is closed and the exit
animation completes. -/
def sClosed : ViewerState := closeAnimEnd (closeBegin sIdle)

/-- State after eleven `zoomIn` clicks on the idle open viewer. -/
def c6state : ViewerState := okState (applyZooms (List.replicate 11 true) sIdle)

/-- Whether a step completed without a runtime fault. -/
def exceptOk (e : Except RuntimeFault ViewerState) : Bool :=
  match e with
  | .ok _ => true
  | .error _ => false

/-- Sanity of the open-and-loaded trace: it completes without fault in the
state named `sIdle`. -/
theorem afterLoad_ok : afterLoad = .ok sIdle := by decide

/-- Key fields of the idle open state: no render outstanding, the flag
clear, page 1 at scale 1.0 with one completed render. -/
theorem sIdle_fields :
    sIdle.pageRendering = false ∧ sIdle.activeRenders = [] ∧ sIdle.scaleTenths = 10 ∧
      sIdle.pageNum = 1 ∧ sIdle.mounted = true ∧ sIdle.renderedLog = [1] := by
  decide

/-- C1 (code bug): render requests issued while a render is in flight are
not coalesced into the single `pageNumPending` slot.  Because `renderPage`
never sets `this.pageRendering = true`, `queueRenderPage` sees the flag
clear during any render it started itself and immediately starts another
concurrent render.  In the trace below, requests 3 and 4 arrive while the
render of page 2 is in flight, yet both start at once (`activeRenders`
grows, the pending slot stays empty), and the intermediate request 3 IS
rendered: the completed-render log ends as `[1, 2, 3, 4]` — three renders
for the two in-flight-time requests instead of the claimed at-most-one,
with no last-writer-wins coalescing. -/
theorem renderRequests_during_flight_bypass_pending :
    queueRenderPage sIdle 2 = .ok c1s2 ∧ c1s2.activeRenders = [2] ∧
      c1s2.pageRendering = false ∧
      queueRenderPage c1s2 3 = .ok c1s3 ∧ c1s3.activeRenders = [2, 3] ∧
      c1s3.pageNumPending = none ∧
      queueRenderPage c1s3 4 = .ok c1s4 ∧ c1s4.activeRenders = [2, 3, 4] ∧
      c1s4.pageNumPending = none ∧
      ((renderPageComplete c1s4).bind renderPageComplete).bind renderPageComplete
        = .ok c1final ∧
      c1final.renderedLog = [1, 2, 3, 4] ∧ c1final.activeRenders = [] := by
  decide

/-- C2 (code bug): a reachable state in which a render is in flight while
the `pageRendering` flag is false.  Only `loadPDF` ever sets the flag;
`renderPage` does not, so the render started by `onNextPage` through
`queueRenderPage` runs with `pageRendering = false`, and every guard that
tests the flag (navigation, zoom, print, download, close) fails to reject
operations issued during it. -/
theorem render_in_flight_with_flag_false :
    afterLoad.bind onNextPage = .ok c2state ∧
      c2state.activeRenders = [2] ∧ c2state.pageRendering = false ∧
      onZoomIn c2state ≠ .ok c2state ∧ closeBegin c2state ≠ c2state := by
  decide

/-- C3 (code bug): when the document load fails, the `catch` branch of
`loadPDF` shows the inline error message but never clears
`this.pageRendering`, which `loadPDF` set on entry.  The stuck flag makes
every subsequent operation — navigation, zoom, print, download and even
`close()` — a permanent no-op: the controller is wedged, contradicting the
claim that the guard flag is cleared and the controller stays usable (the
error message itself invites the user to try again). -/
theorem load_failure_leaves_guard_set :
    c3state.pageRendering = true ∧ c3state.preloaderError = true ∧
      c3state.mounted = true ∧ c3state.pdfDoc = none ∧
      onPrevPage c3state = .ok c3state ∧ onNextPage c3state = .ok c3state ∧
      onZoomIn c3state = .ok c3state ∧ onZoomOut c3state = .ok c3state ∧
      onPrint c3state = c3state ∧ onDownload c3state = c3state ∧
      closeBegin c3state = c3state := by
  decide

/-- C4 (code bug): `open()` called while a close is animating does not wait
for the close to finish — it waits a fixed 100 ms, while the exit animation
the stylesheet attaches lasts 200 ms.  In the interleaving of `c4state` the
re-open has already attached the overlay and started its document load when
the prior close's `animationend` fires: the handler then detaches the
overlay and resets the session, leaving the just-opened viewer unmounted
with its load still in flight (`loadPending` and the stuck `pageRendering`
survive with `url` wiped). -/
theorem open_during_close_loses_overlay :
    openClosingPauseMs < hideAnimationMs ∧
      (openBody (some 9) "b.pdf" (closeBegin sIdle)).mounted = true ∧
      (openBody (some 9) "b.pdf" (closeBegin sIdle)).isClosing = true ∧
      c4state.mounted = false ∧ c4state.loadPending = true ∧
      c4state.pageRendering = true ∧ c4state.url = "" := by
  decide

/-- C9 (code bug): print and an in-flight render are not mutually
exclusive.  `onPrint`'s guard tests `pageRendering`, but renders started by
`queueRenderPage` leave that flag false (see `renderPageStart`), so a print
started while such a render is outstanding proceeds: after clicking next
(render of page 2 in flight) and then print, the state has both an active
render and `isPrinting = true`.  The flag discipline itself is implemented:
`onPrint`/`onDownload` set their flag before starting, and both the success
and failure exits clear it (`printOnLoadingEnd`, `onDownloadFinish`). -/
theorem print_runs_during_active_render :
    (onNextPage sIdle).map onPrint = .ok c9state ∧
      c9state.activeRenders = [2] ∧ c9state.isPrinting = true ∧
      c9state.printBusy = true ∧
      (printOnLoadingEnd c9state).isPrinting = false ∧
      (onDownload sIdle).isDownloading = true ∧
      (onDownloadFinish false (onDownload sIdle)).isDownloading = false := by
  decide

/-- Requesting a render never changes the zoom scale: `queueRenderPage`
either stores the page number in the pending slot or starts the render. -/
theorem queueRenderPage_scaleTenths (s : ViewerState) (n : Int) (t : ViewerState)
    (h : queueRenderPage s n = .ok t) : t.scaleTenths = s.scaleTenths := by
  unfold queueRenderPage renderPageStart at h
  split at h
  · cases h; rfl
  · split at h
    · cases h
    · cases h; rfl

/-- `clampHi` keeps a value that is at least 5 inside `[5, 30]`. -/
theorem clampHi_bounds (x : Int) (h : 5 ≤ x) : 5 ≤ clampHi x ∧ clampHi x ≤ 30 := by
  unfold clampHi
  split <;> omega

/-- `clampLo` keeps a value that is at most 30 inside `[5, 30]`. -/
theorem clampLo_bounds (x : Int) (h : x ≤ 30) : 5 ≤ clampLo x ∧ clampLo x ≤ 30 := by
  unfold clampLo
  split <;> omega

/-- Requesting a render of the current page and refreshing the zoom label
keeps whatever scale the state already holds. -/
theorem zoomRefresh_scaleTenths (s1 t : ViewerState)
    (hb : 5 ≤ s1.scaleTenths ∧ s1.scaleTenths ≤ 30)
    (h : (queueRenderPage s1 s1.pageNum).map updateZoomInfo = .ok t) :
    5 ≤ t.scaleTenths ∧ t.scaleTenths ≤ 30 := by
  rcases hq : queueRenderPage s1 s1.pageNum with e | u
  · rw [hq] at h
    simp only [Except.map] at h
    exact Except.noConfusion h
  · rw [hq] at h
    simp only [Except.map] at h
    cases h
    have hu := queueRenderPage_scaleTenths _ _ _ hq
    show 5 ≤ u.scaleTenths ∧ u.scaleTenths ≤ 30
    rw [hu]
    exact hb

/-- One zoom click (in or out) keeps the scale inside `[0.5, 3.0]`. -/
theorem zoomStep_bounds (b : Bool) (s t : ViewerState)
    (h5 : 5 ≤ s.scaleTenths) (h30 : s.scaleTenths ≤ 30)
    (h : (if b then onZoomIn s else onZoomOut s) = .ok t) :
    5 ≤ t.scaleTenths ∧ t.scaleTenths ≤ 30 := by
  cases b <;> simp only [if_true, if_false, Bool.false_eq_true] at h
  · unfold onZoomOut at h
    split at h
    · cases h; exact ⟨h5, h30⟩
    · split at h
      · exact zoomRefresh_scaleTenths { s with scaleTenths := clampLo (s.scaleTenths - 1) } t
          (clampLo_bounds (s.scaleTenths - 1) (by omega)) h
      · cases h; exact ⟨h5, h30⟩
  · unfold onZoomIn at h
    split at h
    · cases h; exact ⟨h5, h30⟩
    · split at h
      · exact zoomRefresh_scaleTenths { s with scaleTenths := clampHi (s.scaleTenths + 1) } t
          (clampHi_bounds (s.scaleTenths + 1) (by omega)) h
      · cases h; exact ⟨h5, h30⟩

/-- Every fault-free sequence of zoom clicks keeps the scale inside
`[0.5, 3.0]`. -/
theorem applyZooms_bounds (ops : List Bool) (s t : ViewerState)
    (h5 : 5 ≤ s.scaleTenths) (h30 : s.scaleTenths ≤ 30)
    (h : applyZooms ops s = .ok t) : 5 ≤ t.scaleTenths ∧ t.scaleTenths ≤ 30 := by
  induction ops generalizing s with
  | nil =>
    unfold applyZooms at h
    simp only [List.foldlM_nil] at h
    cases h
    exact ⟨h5, h30⟩
  | cons b rest ih =>
    unfold applyZooms at h ih
    rw [List.foldlM_cons] at h
    rcases hstep : (if b then onZoomIn s else onZoomOut s) with e | u
    · rw [hstep] at h; cases h
    · rw [hstep] at h
      have hb := zoomStep_bounds b s u h5 h30 hstep
      exact ih u hb.1 hb.2 h

/-- C5 counterexample: a second `close()` arriving after the viewer has
fully closed is NOT free of side effects.  `close`'s guard checks only the
render/closing/download/print flags, never whether the viewer is still
open, so on the fully closed state it sets `isClosing` again and registers
an `animationend` listener on the detached overlay — which can never fire
(`closeAnimPending` stays false), so nothing will ever clear the flag. -/
theorem close_after_closed_changes_state :
    sClosed.isClosing = false ∧ sClosed.mounted = false ∧
      (closeBegin sClosed).isClosing = true ∧
      (closeBegin sClosed).closeAnimPending = false ∧
      closeBegin sClosed ≠ sClosed := by
  decide

/-- C5 (amended): `close()` is a no-op — no side effects at all — whenever a
close is already in progress (`isClosing` set), so the second of two
back-to-back `close()` calls whose second call lands while the phase is
still Closing adds nothing.  (A second call after the close has completed
is NOT guarded; see the counterexample.) -/
theorem close_noop_while_closing (s : ViewerState) (h : s.isClosing = true) :
    closeBegin s = s := by
  simp [closeBegin, h]

/-- Witness for `close_noop_while_closing` at the concrete state reached by
closing the idle open viewer (the phase is Closing there). -/
theorem close_noop_while_closing_witness :
    closeBegin (closeBegin sIdle) = closeBegin sIdle :=
  close_noop_while_closing (closeBegin sIdle) (by decide)

/-- C6 counterexample: eleven `zoomIn` clicks from scale 1.0 yield scale
2.1 (21 tenths), not the claimed 3.0 (30 tenths). -/
theorem eleven_zoomIns_not_three :
    applyZooms (List.replicate 11 true) sIdle = .ok c6state ∧
      c6state.scaleTenths = 21 ∧ c6state.scaleTenths ≠ 30 := by
  decide

/-- C6 (amended): after any fault-free sequence of `zoomIn`/`zoomOut` calls
the scale stays within `[0.5, 3.0]` (in tenths: `[5, 30]`), and starting
from scale 1.0 with no render in flight, twenty `zoomIn` calls yield
exactly 3.0, clamped, not higher — a twenty-first call leaves it at 3.0. -/
theorem scale_clamped_bounds :
    (∀ (ops : List Bool) (s t : ViewerState), 5 ≤ s.scaleTenths → s.scaleTenths ≤ 30 →
        applyZooms ops s = .ok t → 5 ≤ t.scaleTenths ∧ t.scaleTenths ≤ 30) ∧
      (applyZooms (List.replicate 20 true) sIdle).map ViewerState.scaleTenths = .ok 30 ∧
      (applyZooms (List.replicate 21 true) sIdle).map ViewerState.scaleTenths = .ok 30 := by
  refine ⟨applyZooms_bounds, by decide, by decide⟩

/-- Witness for `scale_clamped_bounds` at a concrete input: one `zoomIn`
from the idle open state (scale 1.0) stays within bounds. -/
theorem scale_clamped_bounds_witness :
    5 ≤ c6state.scaleTenths ∧ c6state.scaleTenths ≤ 30 :=
  scale_clamped_bounds.1 (List.replicate 11 true) sIdle c6state (by decide) (by decide)
    (by decide)

/-- C7 counterexample: `open()` on a viewer that is already open (mounted,
document loaded, idle) is not a no-op even with identical arguments: it
restarts the document load, setting the `pageRendering` guard and leaving a
second load outstanding. -/
theorem open_while_open_changes_state :
    sIdle.mounted = true ∧ sIdle.pageRendering = false ∧
      (openBody (some 7) "a.pdf" sIdle).pageRendering = true ∧
      (openBody (some 7) "a.pdf" sIdle).loadPending = true ∧
      openBody (some 7) "a.pdf" sIdle ≠ sIdle := by
  decide

/-- C7 (amended): `open(url)` never checks whether the viewer is already
Opening or Open — its body runs unconditionally (the only state it consults
is `isClosing`, which merely delays it): it re-captures the focused
element, (re)attaches the overlay and starts a fresh document load. -/
theorem open_always_reloads (s : ViewerState) (act : Option Int) (u : String) :
    (openBody act u s).mounted = true ∧ (openBody act u s).pageRendering = true ∧
      (openBody act u s).loadPending = true ∧ (openBody act u s).url = u ∧
      (openBody act u s).previousFocusedElement = act := by
  simp [openBody, loadPDF]

/-- C8 counterexample: after a successful close the document handle is NOT
null.  The `animationend` handler calls `pdfDoc.destroy()` but never
assigns `this.pdfDoc = null`, so the closed state still stores the
(destroyed) handle. -/
theorem pdfDoc_not_null_after_close :
    sClosed.mounted = false ∧ sClosed.isClosing = false ∧
      sClosed.pdfDoc = some { numPages := 3, destroyed := true } ∧
      sClosed.pdfDoc ≠ none := by
  decide

/-- C8 (amended): on every successful close (guards clear, overlay mounted)
the fields the `animationend` handler lists are reset to their construction
defaults, `destroy()` is invoked on the document handle before the phase
returns to Closed, and the overlay is unmounted — but `pdfDoc` is not
cleared to `null` (it keeps the destroyed handle), and `page`,
`pageRendering` and `isPrinting` are likewise left untouched. -/
theorem close_resets_session_fields (s : ViewerState) (d : PdfDocHandle)
    (h1 : s.pageRendering = false) (h2 : s.isClosing = false)
    (h3 : s.isDownloading = false) (h4 : s.isPrinting = false)
    (h5 : s.mounted = true) (h6 : s.pdfDoc = some d) :
    (closeAnimEnd (closeBegin s)).url = "" ∧
      (closeAnimEnd (closeBegin s)).pageNum = 1 ∧
      (closeAnimEnd (closeBegin s)).pageNumPending = none ∧
      (closeAnimEnd (closeBegin s)).scaleTenths = 10 ∧
      (closeAnimEnd (closeBegin s)).isDraggingHeader = false ∧
      (closeAnimEnd (closeBegin s)).isDraggingScroll = false ∧
      (closeAnimEnd (closeBegin s)).mounted = false ∧
      (closeAnimEnd (closeBegin s)).isClosing = false ∧
      (closeAnimEnd (closeBegin s)).isDownloading = false ∧
      (closeAnimEnd (closeBegin s)).pdfDoc = some { numPages := d.numPages, destroyed := true } ∧
      (closeAnimEnd (closeBegin s)).page = s.page ∧
      (closeAnimEnd (closeBegin s)).pageRendering = s.pageRendering ∧
      (closeAnimEnd (closeBegin s)).isPrinting = s.isPrinting := by
  simp [closeBegin, closeAnimEnd, updateZoomInfo, h1, h2, h3, h4, h5, h6]

/-- Witness for `close_resets_session_fields`: closing the idle open viewer
(3-page document) resets the session and keeps the destroyed handle. -/
theorem close_resets_session_fields_witness :
    (closeAnimEnd (closeBegin sIdle)).url = "" ∧
      (closeAnimEnd (closeBegin sIdle)).pageNum = 1 ∧
      (closeAnimEnd (closeBegin sIdle)).pageNumPending = none ∧
      (closeAnimEnd (closeBegin sIdle)).scaleTenths = 10 ∧
      (closeAnimEnd (closeBegin sIdle)).isDraggingHeader = false ∧
      (closeAnimEnd (closeBegin sIdle)).isDraggingScroll = false ∧
      (closeAnimEnd (closeBegin sIdle)).mounted = false ∧
      (closeAnimEnd (closeBegin sIdle)).isClosing = false ∧
      (closeAnimEnd (closeBegin sIdle)).isDownloading = false ∧
      (closeAnimEnd (closeBegin sIdle)).pdfDoc = some { numPages := 3, destroyed := true } ∧
      (closeAnimEnd (closeBegin sIdle)).page = sIdle.page ∧
      (closeAnimEnd (closeBegin sIdle)).pageRendering = sIdle.pageRendering ∧
      (closeAnimEnd (closeBegin sIdle)).isPrinting = sIdle.isPrinting :=
  close_resets_session_fields sIdle { numPages := 3, destroyed := false }
    (by decide) (by decide) (by decide) (by decide) (by decide) (by decide)

/-- C10 (confirmed): with no render in flight and no document loaded,
`onNextPage` evaluates `this.pdfDoc.numPages` on `null` and faults, while
`onPrevPage` at page 1 returns safely because its page-1 check precedes any
handle access; `onNextPage` is fault-free once a document load has
succeeded (the handle is non-null). -/
theorem nextPage_null_doc_fault :
    (∀ s : ViewerState, s.pageRendering = false → s.pdfDoc = none →
        onNextPage s = .error .nullDoc) ∧
      (∀ s : ViewerState, s.pageNum ≤ 1 → onPrevPage s = .ok s) ∧
      (∀ (s : ViewerState) (d : PdfDocHandle), s.pdfDoc = some d →
        exceptOk (onNextPage s) = true) := by
  refine ⟨?_, ?_, ?_⟩
  · intro s h1 h2
    simp [onNextPage, h1, h2]
  · intro s h
    simp [onPrevPage, h]
  · intro s d h
    unfold onNextPage queueRenderPage renderPageStart
    dsimp only
    rw [h]
    dsimp only
    split <;> first | rfl | (split <;> rfl)

/-- Witness for `nextPage_null_doc_fault`: on the fresh constructor state
(`pdfDoc` null, page 1, nothing rendering) next faults and previous is a
safe no-op; on the loaded idle state next is fault-free. -/
theorem nextPage_null_doc_fault_witness :
    onNextPage initState = .error .nullDoc ∧ onPrevPage initState = .ok initState ∧
      exceptOk (onNextPage sIdle) = true :=
  ⟨nextPage_null_doc_fault.1 initState rfl rfl,
    nextPage_null_doc_fault.2.1 initState (by decide),
    nextPage_null_doc_fault.2.2 sIdle { numPages := 3, destroyed := false } (by decide)⟩
